import Mathlib

/-!
Shallow embedding of the per-connection WebSocket protocol engine of
`tribe-health/vortex` (`src/ws/mod.rs`, `src/ws/error.rs`).

The connection handler is an async function over a message stream, a message
sink, and external collaborators (room registry, RTC state, serde codec).
We embed it as a pure function over:
  * an `Env` of oracle functions standing for the external collaborators and
    the serde codec (the codec lives in the crate's `types` module, which is
    not part of the two source files; its behaviour is taken as an oracle);
  * a finite list of inbound stream items for the handshake phases;
  * a finite schedule of `tokio::select!` outcomes for the event loop
    (each element records which arm fired and with what value — one
    schedule is one possible interleaving of the two sources);
  * a list of sink faults consumed one per outbound send (`true` = the
    send succeeds, `false` = the transport-level send fails).
The handler produces a trace of observable actions (outbound text frames,
registry register/remove calls) and a terminal outcome.
-/

namespace Vortex

/-- Opaque client-supplied transport-initialization blob (`init_data`). -/
abbrev InitData := String

/-- Opaque client-supplied transport-connect blob (`connect_data`). -/
abbrev ConnectData := String

/-- Opaque produce kind carried by produce events (`produce_type`). -/
abbrev ProduceType := String

/-- Opaque reply payload derived from an initialized session
(`rtc_state.get_init_data()`). -/
abbrev InitReplyData := String

/-- Opaque initialized transport/session handle (`RtcState`). -/
abbrev RtcState := String

/-- Opaque router capability description (`rtp_capabilities`). -/
structure RtpCapabilities where
  caps : String
deriving DecidableEq

/-- A user's public-info projection (`user.into_info()`); opaque payload. -/
structure UserInfo where
  display : String
deriving DecidableEq

/-- A room handle; `room.id()` is modelled as the field `id`. -/
structure Room where
  id : String
deriving DecidableEq

/-- Modelled from the spec: the inbound command variants of the missing
`types` module — `Authenticate{room_id, token}`,
`InitializeTransports{init_data}`, `ConnectTransport{connect_data}`,
`RoomInfo`. -/
inductive WSCommandType
  | Authenticate (room_id : String) (token : String)
  | InitializeTransports (init_data : InitData)
  | ConnectTransport (connect_data : ConnectData)
  | RoomInfo
deriving DecidableEq

/-- Modelled from the spec: the inbound envelope `{id: optional string,
type: tagged variant}` of the missing `types` module. -/
structure WSCommand where
  id : Option String
  command_type : WSCommandType
deriving DecidableEq

/-- Modelled from the spec: the static string tag of a command variant,
used as the `type` field of an error envelope (`command.command_type.into()`
via strum `IntoStaticStr`); the wire tags follow the spec's envelope list. -/
def WSCommandType.tag : WSCommandType → String
  | .Authenticate _ _ => "authenticate"
  | .InitializeTransports _ => "initializeTransports"
  | .ConnectTransport _ => "connectTransport"
  | .RoomInfo => "roomInfo"

/-- `WSCommandType.Authenticate` discriminator. -/
def WSCommandType.isAuthenticate : WSCommandType → Bool
  | .Authenticate _ _ => true
  | _ => false

/-- `WSCommandType.InitializeTransports` discriminator. -/
def WSCommandType.isInitializeTransports : WSCommandType → Bool
  | .InitializeTransports _ => true
  | _ => false

/-- Modelled from the spec: the success-reply variants of the missing
`types` module, one per command variant, with the payloads built in
`mod.rs`. -/
inductive WSReplyType
  | Authenticate (user_id : String) (room_id : String)
      (rtp_capabilities : RtpCapabilities)
  | InitializeTransports (reply_data : InitReplyData)
  | ConnectTransport
  | RoomInfo (id : String) (video_allowed : Bool)
      (users : List (String × UserInfo))
deriving DecidableEq

/-- Modelled from the spec: the outbound reply envelope `{id: optional
string (copied from the triggering command), type: tagged variant}`. -/
structure WSReply where
  id : Option String
  reply_type : WSReplyType
deriving DecidableEq

/-- Modelled from the spec: asynchronous outbound events of the missing
`types` module (no correlation id). -/
inductive WSEvent
  | UserJoined (id : String)
  | UserLeft (id : String)
  | UserStartProduce (id : String) (produce_type : ProduceType)
  | UserStopProduce (id : String) (produce_type : ProduceType)
deriving DecidableEq

/-- Room broadcast events (`state::room::RoomEvent`), as consumed by
`event_loop`. -/
inductive RoomEvent
  | UserJoined (id : String)
  | UserLeft (id : String)
  | UserStartProduce (id : String) (produce_type : ProduceType)
  | UserStopProduce (id : String) (produce_type : ProduceType)
  | RoomDelete
deriving DecidableEq

/-- The error kinds of `WSErrorType` in `error.rs`. -/
inductive WSErrorType
  | UserNotFound (id : String)
  | TransportConnectionFailure
  | ProducerFailure
  | ProducerNotFound (id : String)
  | ConsumerFailure
  | ConsumerNotFound (id : String)
deriving DecidableEq

/-- `impl Display for WSErrorType` in `error.rs`. -/
def WSErrorType.toString : WSErrorType → String
  | .UserNotFound id => "User with ID " ++ id ++ " doesn't exist"
  | .TransportConnectionFailure =>
      "An error occured while trying to connect transport"
  | .ProducerFailure =>
      "An unknown error occured while setting up an RTC producer"
  | .ProducerNotFound id => "Producer with ID " ++ id ++ " doesn't exist"
  | .ConsumerFailure =>
      "An unknown error occured while setting up an RTC consumer"
  | .ConsumerNotFound id => "Consumer with ID " ++ id ++ " doesn't exist"

/-- The strum `IntoStaticStr` projection of `WSErrorType` (variant name). -/
def WSErrorType.intoStaticStr : WSErrorType → String
  | .UserNotFound _ => "UserNotFound"
  | .TransportConnectionFailure => "TransportConnectionFailure"
  | .ProducerFailure => "ProducerFailure"
  | .ProducerNotFound _ => "ProducerNotFound"
  | .ConsumerFailure => "ConsumerFailure"
  | .ConsumerNotFound _ => "ConsumerNotFound"

/-- The typed close reasons of `WSCloseType` in `error.rs`. -/
inductive WSCloseType
  | InvalidData
  | InvalidState
  | Unauthorized
  | Kicked
  | RoomClosed
  | ServerError
deriving DecidableEq

/-- The `#[repr(u16)]` numeric close code of each `WSCloseType` variant
(`close as u16`). -/
def WSCloseType.code : WSCloseType → Nat
  | .InvalidData => 1003
  | .InvalidState => 1002
  | .Unauthorized => 4001
  | .Kicked => 4003
  | .RoomClosed => 4004
  | .ServerError => 1011

/-- `impl Display for WSCloseType` in `error.rs` (`close.to_string()`). -/
def WSCloseType.toString : WSCloseType → String
  | .InvalidData => "Unable to parse data"
  | .InvalidState => "Command executed in invalid state"
  | .Unauthorized => "Invalid token"
  | .Kicked => "You have been kicked!"
  | .RoomClosed => "Room has been closed"
  | .ServerError => "Internal Server Error"

/-- The serialized error envelope `WSError` of `error.rs`. -/
structure WSError where
  id : Option String
  command_type : String
  error : String
  message : String
deriving DecidableEq

/-- `WSError::new` in `error.rs`. -/
def WSError.new (id : Option String) (command_type : String)
    (error : WSErrorType) : WSError :=
  { id := id
    command_type := command_type
    message := error.toString
    error := error.intoStaticStr }

/-- `WSError::from_command` in `error.rs`: take the command's `id` and its
variant tag, pair them with the error kind and its message. -/
def WSError.from_command (command : WSCommand) (error : WSErrorType) :
    WSError :=
  { id := command.id
    command_type := command.command_type.tag
    error := error.intoStaticStr
    message := error.toString }

/-- An outbound message handed to `serde_json::to_string` and then to the
sink: a reply, an error envelope, or an event. -/
inductive Outbound
  | reply (r : WSReply)
  | errorMsg (e : WSError)
  | event (ev : WSEvent)
deriving DecidableEq

/-- One observable action of the handler: a text frame handed to the sink
(recording the outbound value and its serialized form), a registry
`register` call with its result, or a registry `remove` call. -/
inductive Action
  | send (o : Outbound) (s : String)
  | register (roomId : String) (token : String) (result : Option String)
  | remove (userId : String)
deriving DecidableEq

/-- A trace of observable actions, in order of occurrence. -/
abbrev Trace := List Action

/-- One item yielded by the inbound WebSocket stream during a handshake
phase: a transport-level receive error (`Err` item), a non-text frame
(ping/binary — `to_str` fails), or a text frame with its payload. An
exhausted list models the stream yielding `None` (client disconnected). -/
inductive InMsg
  | streamErr
  | nonText
  | text (s : String)
deriving DecidableEq

/-- The oracle environment: external collaborators and the serde codec.
`parse` stands for `serde_json::from_str::<WSCommand>` (`none` = parse
error); `serialize` for `serde_json::to_string` on an outbound value
(`none` = serialization error); the rest are the room/user registry, the
router, and the RTC session collaborators consumed by `mod.rs`. -/
structure Env where
  parse : String → Option WSCommand
  serialize : Outbound → Option String
  getRoom : String → Option Room
  register : Room → String → Option String
  router : Room → Option RtpCapabilities
  rtcInit : RtpCapabilities → InitData → Option RtcState
  getInitData : RtcState → InitReplyData
  connectTransport : RtcState → ConnectData → Bool
  roomUsersSnapshot : Room → List (String × UserInfo)
  subscribe : Room → Bool

/-- `serde_json::to_string(..)?` followed by `ws_sink.send(..).await?`:
a serialization error maps to `InvalidData` (the `From<serde_json::Error>`
impl) before anything reaches the sink; otherwise the frame is handed to
the sink, consuming one fault-list entry (an exhausted fault list means
the send succeeds), and a sink failure maps to `ServerError` (the
`From<warp::Error>` impl). Returns the actions, the remaining fault list,
and `some c` when the combined operation failed with close reason `c`. -/
def doSend (env : Env) (o : Outbound) (faults : List Bool) :
    Trace × List Bool × Option WSCloseType :=
  match env.serialize o with
  | none => ([], faults, some .InvalidData)
  | some s =>
      match faults with
      | [] => ([.send o s], [], none)
      | b :: rest =>
          if b then ([.send o s], rest, none)
          else ([.send o s], rest, some .ServerError)

/-- Outcome of the Authentication loop of `handle` (mod.rs lines 47–89):
the stream ended before authentication (`closed`, handler returns `Ok`),
or authentication succeeded (`authed`) with the room, the user id, and
the unread remainder of the stream. -/
inductive AuthOut
  | closed
  | authed (room : Room) (user_id : String) (rest : List InMsg)
deriving DecidableEq

/-- The Authentication phase of `handle` (mod.rs lines 47–89): read
messages, skip non-text frames, fail `ServerError` on a receive error,
`InvalidData` on a parse error, `InvalidState` on any parsed command that
is not `Authenticate`; on `Authenticate`, look up the room
(`Unauthorized` if absent), register the token (`Unauthorized` on
failure), require the router (`RoomClosed` if absent), then send the
`Authenticate` reply carrying the command's id and break with the room
and user id. -/
def authLoop (env : Env) :
    List InMsg → List Bool → Trace × List Bool × Except WSCloseType AuthOut
  | [], faults => ([], faults, .ok .closed)
  | .streamErr :: _, faults => ([], faults, .error .ServerError)
  | .nonText :: rest, faults => authLoop env rest faults
  | .text s :: rest, faults =>
      match env.parse s with
      | none => ([], faults, .error .InvalidData)
      | some out =>
          match out.command_type with
          | .Authenticate room_id token =>
              match env.getRoom room_id with
              | none => ([], faults, .error .Unauthorized)
              | some room =>
                  match env.register room token with
                  | none =>
                      ([.register room.id token none], faults,
                        .error .Unauthorized)
                  | some uid =>
                      match env.router room with
                      | none =>
                          ([.register room.id token (some uid)], faults,
                            .error .RoomClosed)
                      | some caps =>
                          let reply : WSReply :=
                            { id := out.id
                              reply_type :=
                                .Authenticate uid room.id caps }
                          match doSend env (.reply reply) faults with
                          | (t, f, some c) =>
                              (.register room.id token (some uid) :: t, f,
                                .error c)
                          | (t, f, none) =>
                              (.register room.id token (some uid) :: t, f,
                                .ok (.authed room uid rest))
          | _ => ([], faults, .error .InvalidState)

/-- Outcome of the Transport-initialization loop of `handle` (mod.rs
lines 92–126): the stream ended before initialization (`closedCleanup`,
the user was removed and the handler returns `Ok`), or initialization
succeeded (`ready`) with the session handle and the unread remainder. -/
inductive InitOut
  | closedCleanup
  | ready (rtc : RtcState) (rest : List InMsg)
deriving DecidableEq

/-- The Transport-initialization phase of `handle` (mod.rs lines 92–126):
same read discipline as `authLoop`; a stream end removes the user and
returns `Ok`; a parsed command other than `InitializeTransports` fails
`InvalidState`; on `InitializeTransports`, require the router
(`RoomClosed` if absent), initialize the RTC state (`ServerError` on
failure), send the reply carrying the command's id, and break with the
session handle. -/
def initLoop (env : Env) (room : Room) (user_id : String) :
    List InMsg → List Bool → Trace × List Bool × Except WSCloseType InitOut
  | [], faults => ([.remove user_id], faults, .ok .closedCleanup)
  | .streamErr :: _, faults => ([], faults, .error .ServerError)
  | .nonText :: rest, faults => initLoop env room user_id rest faults
  | .text s :: rest, faults =>
      match env.parse s with
      | none => ([], faults, .error .InvalidData)
      | some out =>
          match out.command_type with
          | .InitializeTransports init_data =>
              match env.router room with
              | none => ([], faults, .error .RoomClosed)
              | some caps =>
                  match env.rtcInit caps init_data with
                  | none => ([], faults, .error .ServerError)
                  | some rtc =>
                      let reply : WSReply :=
                        { id := out.id
                          reply_type :=
                            .InitializeTransports (env.getInitData rtc) }
                      match doSend env (.reply reply) faults with
                      | (t, f, some c) => (t, f, .error c)
                      | (t, f, none) => (t, f, .ok (.ready rtc rest))
          | _ => ([], faults, .error .InvalidState)

/-- One `tokio::select!` outcome in `event_loop` (mod.rs lines 146–244):
the client stream yielded an item (`client`), the client stream ended
(`clientClosed`, `ws_stream.next()` returned `None`), the room broadcast
stream yielded an event (`room`), or the broadcast receive failed
(`roomErr`). A schedule is one possible interleaving of the two select
arms. -/
inductive LoopItem
  | client (m : InMsg)
  | clientClosed
  | room (e : RoomEvent)
  | roomErr
deriving DecidableEq

/-- Outcome of the event loop on a finite schedule: `term r` when the loop
returned (`r = none` for `Ok(())`, `r = some c` for `Err(c)`), `running`
when the schedule is exhausted with the loop still live. -/
inductive LoopOutcome
  | term (r : Option WSCloseType)
  | running
deriving DecidableEq

/-- `HashMap::insert` on an association list: replace the binding when the
key is present, append it otherwise. -/
def hmInsert (k : String) (v : UserInfo) :
    List (String × UserInfo) → List (String × UserInfo)
  | [] => [(k, v)]
  | (k', v') :: t =>
      if k' = k then (k, v) :: t else (k', v') :: hmInsert k v t

/-- The `RoomInfo` user-map construction (mod.rs lines 174–180): fold the
registry snapshot into a `HashMap`, inserting each user's public info
keyed by its id. -/
def buildUserInfo (l : List (String × UserInfo)) :
    List (String × UserInfo) :=
  l.foldl (fun m p => hmInsert p.1 p.2 m) []

/-- The body of `event_loop` (mod.rs lines 146–245) after the subscription
check, processing one scheduled select outcome per step. Client text
frames are parsed (`InvalidData` on failure) and matched: a
`ConnectTransport` attempt replies on success and emits an error envelope
on failure, in both cases continuing the loop; `RoomInfo` replies with the
room id, `video_allowed = false` and the user map; any other variant fails
`InvalidState`. Room events echo to other users, suppress the user's own
join/produce events, fail `Kicked` on the user's own `UserLeft` and
`RoomClosed` on `RoomDelete`. -/
def eventLoopGo (env : Env) (room : Room) (user_id : String)
    (rtc : RtcState) :
    List LoopItem → List Bool → Trace × List Bool × LoopOutcome
  | [], faults => ([], faults, .running)
  | .clientClosed :: _, faults => ([], faults, .term none)
  | .roomErr :: _, faults => ([], faults, .term (some .ServerError))
  | .client .streamErr :: _, faults =>
      ([], faults, .term (some .ServerError))
  | .client .nonText :: rest, faults =>
      eventLoopGo env room user_id rtc rest faults
  | .client (.text s) :: rest, faults =>
      match env.parse s with
      | none => ([], faults, .term (some .InvalidData))
      | some out =>
          match out.command_type with
          | .ConnectTransport connect_data =>
              if env.connectTransport rtc connect_data then
                match doSend env
                    (.reply { id := out.id, reply_type := .ConnectTransport })
                    faults with
                | (t, f, some c) => (t, f, .term (some c))
                | (t, f, none) =>
                    let r := eventLoopGo env room user_id rtc rest f
                    (t ++ r.1, r.2.1, r.2.2)
              else
                match doSend env
                    (.errorMsg
                      (WSError.from_command out .TransportConnectionFailure))
                    faults with
                | (t, f, some c) => (t, f, .term (some c))
                | (t, f, none) =>
                    let r := eventLoopGo env room user_id rtc rest f
                    (t ++ r.1, r.2.1, r.2.2)
          | .RoomInfo =>
              match doSend env
                  (.reply
                    { id := out.id
                      reply_type :=
                        .RoomInfo room.id false
                          (buildUserInfo (env.roomUsersSnapshot room)) })
                  faults with
              | (t, f, some c) => (t, f, .term (some c))
              | (t, f, none) =>
                  let r := eventLoopGo env room user_id rtc rest f
                  (t ++ r.1, r.2.1, r.2.2)
          | _ => ([], faults, .term (some .InvalidState))
  | .room ev :: rest, faults =>
      match ev with
      | .UserJoined id =>
          if id ≠ user_id then
            match doSend env (.event (.UserJoined id)) faults with
            | (t, f, some c) => (t, f, .term (some c))
            | (t, f, none) =>
                let r := eventLoopGo env room user_id rtc rest f
                (t ++ r.1, r.2.1, r.2.2)
          else eventLoopGo env room user_id rtc rest faults
      | .UserLeft id =>
          if id = user_id then ([], faults, .term (some .Kicked))
          else
            match doSend env (.event (.UserLeft id)) faults with
            | (t, f, some c) => (t, f, .term (some c))
            | (t, f, none) =>
                let r := eventLoopGo env room user_id rtc rest f
                (t ++ r.1, r.2.1, r.2.2)
      | .UserStartProduce id produce_type =>
          if id ≠ user_id then
            match doSend env (.event (.UserStartProduce id produce_type))
                faults with
            | (t, f, some c) => (t, f, .term (some c))
            | (t, f, none) =>
                let r := eventLoopGo env room user_id rtc rest f
                (t ++ r.1, r.2.1, r.2.2)
          else eventLoopGo env room user_id rtc rest faults
      | .UserStopProduce id produce_type =>
          if id ≠ user_id then
            match doSend env (.event (.UserStopProduce id produce_type))
                faults with
            | (t, f, some c) => (t, f, .term (some c))
            | (t, f, none) =>
                let r := eventLoopGo env room user_id rtc rest f
                (t ++ r.1, r.2.1, r.2.2)
          else eventLoopGo env room user_id rtc rest faults
      | .RoomDelete => ([], faults, .term (some .RoomClosed))

/-- `event_loop` (mod.rs lines 136–245): open the room subscription
(`RoomClosed` when the room is no longer subscribable), then run the
select loop on the given schedule. -/
def event_loop (env : Env) (room : Room) (user_id : String)
    (rtc : RtcState) (sched : List LoopItem) (faults : List Bool) :
    Trace × List Bool × LoopOutcome :=
  if env.subscribe room then eventLoopGo env room user_id rtc sched faults
  else ([], faults, .term (some .RoomClosed))

/-- Outcome of `handle` on finite inputs: `done r` when the handler
returned (`none` = `Ok(())`), `running` when the inputs are exhausted with
the handler still live. -/
inductive HandleOutcome
  | done (r : Option WSCloseType)
  | running
deriving DecidableEq

/-- `handle` (mod.rs lines 42–134): run the Authentication phase, then the
Transport-initialization phase, then the event loop; after the event loop
returns (with any result) remove the user from the room (the removal's own
failure is swallowed). Error returns from either handshake phase propagate
directly — with no removal on those paths. -/
def handle (env : Env) (hs : List InMsg) (sched : List LoopItem)
    (faults : List Bool) : Trace × HandleOutcome :=
  match authLoop env hs faults with
  | (t, _, .error c) => (t, .done (some c))
  | (t, _, .ok .closed) => (t, .done none)
  | (t, f, .ok (.authed room user_id rest)) =>
      match initLoop env room user_id rest f with
      | (t2, _, .error c) => (t ++ t2, .done (some c))
      | (t2, _, .ok .closedCleanup) => (t ++ t2, .done none)
      | (t2, f2, .ok (.ready rtc _)) =>
          match event_loop env room user_id rtc sched f2 with
          | (t3, _, .term r) =>
              (t ++ t2 ++ (t3 ++ [.remove user_id]), .done r)
          | (t3, _, .running) => (t ++ t2 ++ t3, .running)

/-- A close frame as sent by `on_connection`: `Message::close_with(code,
reason)` on an error result, the plain `Message::close()` on `Ok`. -/
inductive CloseFrame
  | closeWith (code : Nat) (reason : String)
  | close
deriving DecidableEq

/-- The close-frame selection of `on_connection` (mod.rs lines 33–39):
an error result yields `close_with(close as u16, close.to_string())`, a
success yields the plain close frame. -/
def onConnectionClose : Option WSCloseType → CloseFrame
  | some c => .closeWith c.code c.toString
  | none => .close

/-- `on_connection` (mod.rs lines 30–40): run `handle` and convert its
result into the final close frame (none while the handler is still
running on the given finite inputs). -/
def on_connection (env : Env) (hs : List InMsg) (sched : List LoopItem)
    (faults : List Bool) : Trace × Option CloseFrame :=
  match handle env hs sched faults with
  | (t, .done r) => (t, some (onConnectionClose r))
  | (t, .running) => (t, none)

/-- Whether a trace contains a successful registration — i.e. room
membership was acquired at some point. -/
def acquired (t : Trace) : Bool :=
  t.any fun a =>
    match a with
    | .register _ _ (some _) => true
    | _ => false

/-- How many times the trace removes the given user from the registry. -/
def removeCount (t : Trace) (user_id : String) : Nat :=
  (t.filter fun a => a = .remove user_id).length

/-- A concrete oracle environment used to evaluate the model on closed
inputs: one room `"r"` whose registry accepts token `"t"` as user `"u1"`,
a parser recognising a fixed handful of frames, and a serializer that
always succeeds. -/
def testEnv : Env where
  parse s :=
    if s = "auth" then
      some { id := some "a1", command_type := .Authenticate "r" "t" }
    else if s = "authBadRoom" then
      some { id := some "a2", command_type := .Authenticate "nope" "t" }
    else if s = "authBadTok" then
      some { id := some "a3", command_type := .Authenticate "r" "bad" }
    else if s = "init" then
      some { id := some "b1", command_type := .InitializeTransports "idata" }
    else if s = "conn" then
      some { id := some "c1", command_type := .ConnectTransport "good" }
    else if s = "connBad" then
      some { id := some "c2", command_type := .ConnectTransport "bad" }
    else if s = "info" then
      some { id := some "d1", command_type := .RoomInfo }
    else none
  serialize _ := some "json"
  getRoom rid := if rid = "r" then some { id := "r" } else none
  register _ tok := if tok = "t" then some "u1" else none
  router _ := some { caps := "caps" }
  rtcInit _ _ := some "rtc"
  getInitData _ := "rdata"
  connectTransport _ cd := cd = "good"
  roomUsersSnapshot _ := [("u1", { display := "one" }), ("u2", { display := "two" })]
  subscribe _ := true

/-- A variant environment whose serializer always fails, exercising the
outbound-serialization error path. -/
def testEnvNoSer : Env :=
  { testEnv with serialize := fun _ => none }

lemma mem_keys_hmInsert (a k : String) (v : UserInfo)
    (m : List (String × UserInfo)) :
    a ∈ (hmInsert k v m).map Prod.fst ↔ a = k ∨ a ∈ m.map Prod.fst := by
  induction m with
  | nil => simp [hmInsert]
  | cons p t ih =>
      obtain ⟨k', v'⟩ := p
      by_cases h : k' = k
      · subst h
        simp [hmInsert]
      · simp only [hmInsert, if_neg h, List.map_cons, List.mem_cons, ih]
        tauto

lemma mem_keys_foldl_hmInsert (l : List (String × UserInfo)) :
    ∀ (acc : List (String × UserInfo)) (a : String),
      a ∈ (l.foldl (fun m p => hmInsert p.1 p.2 m) acc).map Prod.fst ↔
        a ∈ acc.map Prod.fst ∨ a ∈ l.map Prod.fst := by
  induction l with
  | nil => simp
  | cons p t ih =>
      intro acc a
      simp only [List.foldl_cons, ih, mem_keys_hmInsert, List.map_cons,
        List.mem_cons]
      tauto

/-- C1: the spec requires that whenever room membership was acquired the
user is removed from the room's registry exactly once before the handler
returns, on every exit path. The code violates this: after a successful
`Authenticate` (registration recorded in the trace), a wrong-variant
command in the Transport-initialization phase makes `handle` return
`Err(InvalidState)` without ever calling `remove` — membership leaks. -/
theorem C1_membership_leak :
    acquired (handle testEnv [.text "auth", .text "info"] [] []).1 = true ∧
    removeCount (handle testEnv [.text "auth", .text "info"] [] []).1 "u1"
      = 0 ∧
    (handle testEnv [.text "auth", .text "info"] [] []).2 =
      .done (some .InvalidState) := by
  decide

/-- C2: a well-formed command whose variant is not permitted in the
current phase terminates the connection with `InvalidState` (close code
1002): any non-`Authenticate` command before authentication, any
non-`InitializeTransports` command in the init phase, and any command
other than `ConnectTransport`/`RoomInfo` (in particular a repeated
`Authenticate` or `InitializeTransports`) in the active phase. -/
theorem C2_phase_gating :
    (∀ (env : Env) (s : String) (out : WSCommand) (rest : List InMsg)
        (faults : List Bool),
        env.parse s = some out →
        out.command_type.isAuthenticate = false →
        authLoop env (.text s :: rest) faults =
          ([], faults, .error .InvalidState)) ∧
    (∀ (env : Env) (room : Room) (uid s : String) (out : WSCommand)
        (rest : List InMsg) (faults : List Bool),
        env.parse s = some out →
        out.command_type.isInitializeTransports = false →
        initLoop env room uid (.text s :: rest) faults =
          ([], faults, .error .InvalidState)) ∧
    (∀ (env : Env) (room : Room) (uid : String) (rtc : RtcState)
        (s : String) (out : WSCommand) (sched : List LoopItem)
        (faults : List Bool) (room_id token : String) (d : InitData),
        env.parse s = some out →
        (out.command_type = .Authenticate room_id token ∨
          out.command_type = .InitializeTransports d) →
        eventLoopGo env room uid rtc (.client (.text s) :: sched) faults =
          ([], faults, .term (some .InvalidState))) ∧
    WSCloseType.InvalidState.code = 1002 := by
  refine ⟨?_, ?_, ?_, rfl⟩
  · intro env s out rest faults hp hv
    cases hct : out.command_type with
    | Authenticate rid tok =>
        rw [hct] at hv
        exact absurd hv (by simp [WSCommandType.isAuthenticate])
    | InitializeTransports d => simp [authLoop, hp, hct]
    | ConnectTransport d => simp [authLoop, hp, hct]
    | RoomInfo => simp [authLoop, hp, hct]
  · intro env room uid s out rest faults hp hv
    cases hct : out.command_type with
    | InitializeTransports d =>
        rw [hct] at hv
        exact absurd hv (by simp [WSCommandType.isInitializeTransports])
    | Authenticate rid tok => simp [initLoop, hp, hct]
    | ConnectTransport d => simp [initLoop, hp, hct]
    | RoomInfo => simp [initLoop, hp, hct]
  · intro env room uid rtc s out sched faults room_id token d hp hv
    rcases hv with hct | hct <;> simp [eventLoopGo, hp, hct]

/-- C3: a text frame whose payload fails to parse as a command terminates
the connection with `InvalidData` (close code 1003) in each of the three
phases, and the failing frame produces no outbound action at all. -/
theorem C3_parse_failure :
    (∀ (env : Env) (s : String) (rest : List InMsg) (faults : List Bool),
        env.parse s = none →
        authLoop env (.text s :: rest) faults =
          ([], faults, .error .InvalidData)) ∧
    (∀ (env : Env) (room : Room) (uid s : String) (rest : List InMsg)
        (faults : List Bool),
        env.parse s = none →
        initLoop env room uid (.text s :: rest) faults =
          ([], faults, .error .InvalidData)) ∧
    (∀ (env : Env) (room : Room) (uid : String) (rtc : RtcState)
        (s : String) (sched : List LoopItem) (faults : List Bool),
        env.parse s = none →
        eventLoopGo env room uid rtc (.client (.text s) :: sched) faults =
          ([], faults, .term (some .InvalidData))) ∧
    WSCloseType.InvalidData.code = 1003 := by
  refine ⟨?_, ?_, ?_, rfl⟩
  · intro env s rest faults hp
    simp [authLoop, hp]
  · intro env room uid s rest faults hp
    simp [initLoop, hp]
  · intro env room uid rtc s sched faults hp
    simp [eventLoopGo, hp]

/-- C4: the supervisor's close frame carries exactly the close reason's
numeric code and its fixed reason string (`InvalidData` 1003,
`InvalidState` 1002, `Unauthorized` 4001, `Kicked` 4003, `RoomClosed`
4004, `ServerError` 1011), and a successful handler result yields the
plain close frame with no special code. -/
theorem C4_close_frame :
    onConnectionClose none = .close ∧
    onConnectionClose (some .InvalidData) =
      .closeWith 1003 "Unable to parse data" ∧
    onConnectionClose (some .InvalidState) =
      .closeWith 1002 "Command executed in invalid state" ∧
    onConnectionClose (some .Unauthorized) =
      .closeWith 4001 "Invalid token" ∧
    onConnectionClose (some .Kicked) =
      .closeWith 4003 "You have been kicked!" ∧
    onConnectionClose (some .RoomClosed) =
      .closeWith 4004 "Room has been closed" ∧
    onConnectionClose (some .ServerError) =
      .closeWith 1011 "Internal Server Error" := by
  decide

/-- C5: broadcast handling in the event loop. `UserJoined`,
`UserStartProduce` and `UserStopProduce` for the connection's own user id
are suppressed (the loop continues with no outbound action); the same
events for another id are forwarded as the matching outbound event; a
`UserLeft` for the own id terminates with `Kicked` (4003) without
forwarding, a `UserLeft` for another id is forwarded; `RoomDelete`
terminates with `RoomClosed` (4004) unconditionally. -/
theorem C5_room_events :
    (∀ (env : Env) (room : Room) (uid : String) (rtc : RtcState)
        (sched : List LoopItem) (faults : List Bool) (pt : ProduceType),
        eventLoopGo env room uid rtc (.room (.UserJoined uid) :: sched)
            faults =
          eventLoopGo env room uid rtc sched faults ∧
        eventLoopGo env room uid rtc
            (.room (.UserStartProduce uid pt) :: sched) faults =
          eventLoopGo env room uid rtc sched faults ∧
        eventLoopGo env room uid rtc
            (.room (.UserStopProduce uid pt) :: sched) faults =
          eventLoopGo env room uid rtc sched faults) ∧
    (∀ (env : Env) (room : Room) (uid : String) (rtc : RtcState)
        (sched : List LoopItem) (id s : String),
        id ≠ uid →
        env.serialize (.event (.UserJoined id)) = some s →
        eventLoopGo env room uid rtc (.room (.UserJoined id) :: sched) [] =
          (.send (.event (.UserJoined id)) s ::
              (eventLoopGo env room uid rtc sched []).1,
            (eventLoopGo env room uid rtc sched []).2.1,
            (eventLoopGo env room uid rtc sched []).2.2)) ∧
    (∀ (env : Env) (room : Room) (uid : String) (rtc : RtcState)
        (sched : List LoopItem) (id s : String) (pt : ProduceType),
        id ≠ uid →
        env.serialize (.event (.UserStartProduce id pt)) = some s →
        eventLoopGo env room uid rtc
            (.room (.UserStartProduce id pt) :: sched) [] =
          (.send (.event (.UserStartProduce id pt)) s ::
              (eventLoopGo env room uid rtc sched []).1,
            (eventLoopGo env room uid rtc sched []).2.1,
            (eventLoopGo env room uid rtc sched []).2.2)) ∧
    (∀ (env : Env) (room : Room) (uid : String) (rtc : RtcState)
        (sched : List LoopItem) (id s : String) (pt : ProduceType),
        id ≠ uid →
        env.serialize (.event (.UserStopProduce id pt)) = some s →
        eventLoopGo env room uid rtc
            (.room (.UserStopProduce id pt) :: sched) [] =
          (.send (.event (.UserStopProduce id pt)) s ::
              (eventLoopGo env room uid rtc sched []).1,
            (eventLoopGo env room uid rtc sched []).2.1,
            (eventLoopGo env room uid rtc sched []).2.2)) ∧
    (∀ (env : Env) (room : Room) (uid : String) (rtc : RtcState)
        (sched : List LoopItem) (faults : List Bool),
        eventLoopGo env room uid rtc (.room (.UserLeft uid) :: sched)
            faults =
          ([], faults, .term (some .Kicked))) ∧
    (∀ (env : Env) (room : Room) (uid : String) (rtc : RtcState)
        (sched : List LoopItem) (id s : String),
        id ≠ uid →
        env.serialize (.event (.UserLeft id)) = some s →
        eventLoopGo env room uid rtc (.room (.UserLeft id) :: sched) [] =
          (.send (.event (.UserLeft id)) s ::
              (eventLoopGo env room uid rtc sched []).1,
            (eventLoopGo env room uid rtc sched []).2.1,
            (eventLoopGo env room uid rtc sched []).2.2)) ∧
    (∀ (env : Env) (room : Room) (uid : String) (rtc : RtcState)
        (sched : List LoopItem) (faults : List Bool),
        eventLoopGo env room uid rtc (.room .RoomDelete :: sched) faults =
          ([], faults, .term (some .RoomClosed))) ∧
    WSCloseType.Kicked.code = 4003 ∧
    WSCloseType.RoomClosed.code = 4004 := by
  refine ⟨?_, ?_, ?_, ?_, ?_, ?_, ?_, rfl, rfl⟩
  · intro env room uid rtc sched faults pt
    refine ⟨?_, ?_, ?_⟩ <;> simp [eventLoopGo]
  · intro env room uid rtc sched id s hne hser
    simp [eventLoopGo, doSend, hne, hser]
  · intro env room uid rtc sched id s pt hne hser
    simp [eventLoopGo, doSend, hne, hser]
  · intro env room uid rtc sched id s pt hne hser
    simp [eventLoopGo, doSend, hne, hser]
  · intro env room uid rtc sched faults
    simp [eventLoopGo]
  · intro env room uid rtc sched id s hne hser
    simp [eventLoopGo, doSend, hne, hser]
  · intro env room uid rtc sched faults
    simp [eventLoopGo]

/-- C6: a `ConnectTransport` command whose transport-connect attempt fails
does not close the connection: the step emits exactly one error envelope
— carrying the command's id, the command's type tag and the
`TransportConnectionFailure` kind — and the loop continues on the rest of
the schedule; on success it emits exactly one `ConnectTransport` reply
carrying the command's id and likewise continues. -/
theorem C6_connect_transport :
    (∀ (env : Env) (room : Room) (uid : String) (rtc : RtcState)
        (sched : List LoopItem) (s : String) (out : WSCommand)
        (cd : ConnectData) (es : String),
        env.parse s = some out →
        out.command_type = .ConnectTransport cd →
        env.connectTransport rtc cd = false →
        env.serialize
            (.errorMsg
              (WSError.from_command out .TransportConnectionFailure)) =
          some es →
        eventLoopGo env room uid rtc (.client (.text s) :: sched) [] =
          (.send
              (.errorMsg
                (WSError.from_command out .TransportConnectionFailure))
              es ::
              (eventLoopGo env room uid rtc sched []).1,
            (eventLoopGo env room uid rtc sched []).2.1,
            (eventLoopGo env room uid rtc sched []).2.2)) ∧
    (∀ (env : Env) (room : Room) (uid : String) (rtc : RtcState)
        (sched : List LoopItem) (s : String) (out : WSCommand)
        (cd : ConnectData) (rs : String),
        env.parse s = some out →
        out.command_type = .ConnectTransport cd →
        env.connectTransport rtc cd = true →
        env.serialize
            (.reply { id := out.id, reply_type := .ConnectTransport }) =
          some rs →
        eventLoopGo env room uid rtc (.client (.text s) :: sched) [] =
          (.send (.reply { id := out.id, reply_type := .ConnectTransport })
              rs ::
              (eventLoopGo env room uid rtc sched []).1,
            (eventLoopGo env room uid rtc sched []).2.1,
            (eventLoopGo env room uid rtc sched []).2.2)) ∧
    (∀ (out : WSCommand),
        (WSError.from_command out .TransportConnectionFailure).id =
          out.id ∧
        (WSError.from_command out
              .TransportConnectionFailure).command_type =
          out.command_type.tag ∧
        (WSError.from_command out .TransportConnectionFailure).error =
          "TransportConnectionFailure") := by
  refine ⟨?_, ?_, ?_⟩
  · intro env room uid rtc sched s out cd es hp hct hconn hser
    simp [eventLoopGo, doSend, hp, hct, hconn, hser]
  · intro env room uid rtc sched s out cd rs hp hct hconn hser
    simp [eventLoopGo, doSend, hp, hct, hconn, hser]
  · intro out
    exact ⟨rfl, rfl, rfl⟩

/-- C7: an `Authenticate` command whose room lookup fails, or whose token
registration fails, terminates the connection with `Unauthorized` (close
code 4001), and the trace shows the user was never added: no successful
registration occurs (the room-lookup failure performs no registry call at
all; the registration failure records only the failed call). -/
theorem C7_unauthorized :
    (∀ (env : Env) (s : String) (out : WSCommand) (rest : List InMsg)
        (faults : List Bool) (room_id token : String),
        env.parse s = some out →
        out.command_type = .Authenticate room_id token →
        env.getRoom room_id = none →
        authLoop env (.text s :: rest) faults =
          ([], faults, .error .Unauthorized)) ∧
    (∀ (env : Env) (s : String) (out : WSCommand) (rest : List InMsg)
        (faults : List Bool) (room_id token : String) (room : Room),
        env.parse s = some out →
        out.command_type = .Authenticate room_id token →
        env.getRoom room_id = some room →
        env.register room token = none →
        authLoop env (.text s :: rest) faults =
          ([.register room.id token none], faults, .error .Unauthorized)) ∧
    (∀ (rid tok : String), acquired [.register rid tok none] = false) ∧
    acquired [] = false ∧
    WSCloseType.Unauthorized.code = 4001 := by
  refine ⟨?_, ?_, ?_, rfl, rfl⟩
  · intro env s out rest faults room_id token hp hct hroom
    simp [authLoop, hp, hct, hroom]
  · intro env s out rest faults room_id token room hp hct hroom hreg
    simp [authLoop, hp, hct, hroom, hreg]
  · intro rid tok
    rfl

/-- C8: a `RoomInfo` command in the active phase emits exactly one reply
carrying the room's id, `video_allowed = false`, and a user map built from
the registry snapshot; and the keys of that map are exactly the ids of the
users in the snapshot. -/
theorem C8_room_info :
    (∀ (env : Env) (room : Room) (uid : String) (rtc : RtcState)
        (sched : List LoopItem) (s : String) (out : WSCommand)
        (rs : String),
        env.parse s = some out →
        out.command_type = .RoomInfo →
        env.serialize
            (.reply
              { id := out.id
                reply_type :=
                  .RoomInfo room.id false
                    (buildUserInfo (env.roomUsersSnapshot room)) }) =
          some rs →
        eventLoopGo env room uid rtc (.client (.text s) :: sched) [] =
          (.send
              (.reply
                { id := out.id
                  reply_type :=
                    .RoomInfo room.id false
                      (buildUserInfo (env.roomUsersSnapshot room)) })
              rs ::
              (eventLoopGo env room uid rtc sched []).1,
            (eventLoopGo env room uid rtc sched []).2.1,
            (eventLoopGo env room uid rtc sched []).2.2)) ∧
    (∀ (l : List (String × UserInfo)) (k : String),
        k ∈ (buildUserInfo l).map Prod.fst ↔ k ∈ l.map Prod.fst) := by
  constructor
  · intro env room uid rtc sched s out rs hp hct hser
    simp [eventLoopGo, doSend, hp, hct, hser]
  · intro l k
    simpa [buildUserInfo] using mem_keys_foldl_hmInsert l [] k

/-- C9: correlation-id round-trip — each successfully applied command
produces exactly one reply whose `id` equals the command's `id` (an
absent id stays absent, both being the same `Option` value): the
`Authenticate` and `InitializeTransports` handshake replies, the
`ConnectTransport` and `RoomInfo` replies in the active phase, and every
error envelope built from a command by `WSError.from_command`. -/
theorem C9_id_roundtrip :
    (∀ (env : Env) (s : String) (out : WSCommand) (rest : List InMsg)
        (room_id token : String) (room : Room) (uid : String)
        (caps : RtpCapabilities) (rs : String),
        env.parse s = some out →
        out.command_type = .Authenticate room_id token →
        env.getRoom room_id = some room →
        env.register room token = some uid →
        env.router room = some caps →
        env.serialize
            (.reply
              { id := out.id
                reply_type := .Authenticate uid room.id caps }) =
          some rs →
        authLoop env (.text s :: rest) [] =
          ([.register room.id token (some uid),
            .send
              (.reply
                { id := out.id
                  reply_type := .Authenticate uid room.id caps })
              rs],
            [], .ok (.authed room uid rest))) ∧
    (∀ (env : Env) (room : Room) (uid s : String) (out : WSCommand)
        (rest : List InMsg) (init_data : InitData)
        (caps : RtpCapabilities) (rtc : RtcState) (rs : String),
        env.parse s = some out →
        out.command_type = .InitializeTransports init_data →
        env.router room = some caps →
        env.rtcInit caps init_data = some rtc →
        env.serialize
            (.reply
              { id := out.id
                reply_type :=
                  .InitializeTransports (env.getInitData rtc) }) =
          some rs →
        initLoop env room uid (.text s :: rest) [] =
          ([.send
              (.reply
                { id := out.id
                  reply_type :=
                    .InitializeTransports (env.getInitData rtc) })
              rs],
            [], .ok (.ready rtc rest))) ∧
    (∀ (env : Env) (room : Room) (uid : String) (rtc : RtcState)
        (s : String) (out : WSCommand) (cd : ConnectData) (rs : String),
        env.parse s = some out →
        out.command_type = .ConnectTransport cd →
        env.connectTransport rtc cd = true →
        env.serialize
            (.reply { id := out.id, reply_type := .ConnectTransport }) =
          some rs →
        eventLoopGo env room uid rtc [.client (.text s)] [] =
          ([.send
              (.reply { id := out.id, reply_type := .ConnectTransport })
              rs],
            [], .running)) ∧
    (∀ (env : Env) (room : Room) (uid : String) (rtc : RtcState)
        (s : String) (out : WSCommand) (rs : String),
        env.parse s = some out →
        out.command_type = .RoomInfo →
        env.serialize
            (.reply
              { id := out.id
                reply_type :=
                  .RoomInfo room.id false
                    (buildUserInfo (env.roomUsersSnapshot room)) }) =
          some rs →
        eventLoopGo env room uid rtc [.client (.text s)] [] =
          ([.send
              (.reply
                { id := out.id
                  reply_type :=
                    .RoomInfo room.id false
                      (buildUserInfo (env.roomUsersSnapshot room)) })
              rs],
            [], .running)) ∧
    (∀ (out : WSCommand) (err : WSErrorType),
        (WSError.from_command out err).id = out.id) := by
  refine ⟨?_, ?_, ?_, ?_, ?_⟩
  · intro env s out rest room_id token room uid caps rs hp hct hroom hreg
      hrouter hser
    simp [authLoop, doSend, hp, hct, hroom, hreg, hrouter, hser]
  · intro env room uid s out rest init_data caps rtc rs hp hct hrouter
      hinit hser
    simp [initLoop, doSend, hp, hct, hrouter, hinit, hser]
  · intro env room uid rtc s out cd rs hp hct hconn hser
    simp [eventLoopGo, doSend, hp, hct, hconn, hser]
  · intro env room uid rtc s out rs hp hct hser
    simp [eventLoopGo, doSend, hp, hct, hser]
  · intro out err
    rfl

/-- C10: a failed serialization of any outbound message maps to
`InvalidData` (1003), not `ServerError` (1011): the combined
serialize-and-send step fails with `InvalidData` whenever the serializer
fails, before anything reaches the sink; in particular a broadcast event
whose serialization fails terminates the loop with `InvalidData`, and a
handshake reply whose serialization fails terminates the handshake with
`InvalidData`. -/
theorem C10_serialize_invalid_data :
    (∀ (env : Env) (o : Outbound) (faults : List Bool),
        env.serialize o = none →
        doSend env o faults = ([], faults, some .InvalidData)) ∧
    (∀ (env : Env) (room : Room) (uid : String) (rtc : RtcState)
        (sched : List LoopItem) (faults : List Bool) (id : String),
        id ≠ uid →
        env.serialize (.event (.UserJoined id)) = none →
        eventLoopGo env room uid rtc (.room (.UserJoined id) :: sched)
            faults =
          ([], faults, .term (some .InvalidData))) ∧
    (∀ (env : Env) (s : String) (out : WSCommand) (rest : List InMsg)
        (faults : List Bool) (room_id token : String) (room : Room)
        (uid : String) (caps : RtpCapabilities),
        env.parse s = some out →
        out.command_type = .Authenticate room_id token →
        env.getRoom room_id = some room →
        env.register room token = some uid →
        env.router room = some caps →
        env.serialize
            (.reply
              { id := out.id
                reply_type := .Authenticate uid room.id caps }) =
          none →
        authLoop env (.text s :: rest) faults =
          ([.register room.id token (some uid)], faults,
            .error .InvalidData)) ∧
    WSCloseType.InvalidData.code = 1003 ∧
    WSCloseType.ServerError.code = 1011 := by
  refine ⟨?_, ?_, ?_, rfl, rfl⟩
  · intro env o faults hser
    simp [doSend, hser]
  · intro env room uid rtc sched faults id hne hser
    simp [eventLoopGo, doSend, hne, hser]
  · intro env s out rest faults room_id token room uid caps hp hct hroom
      hreg hrouter hser
    simp [authLoop, doSend, hp, hct, hroom, hreg, hrouter, hser]

/-- Concrete witness for C2: a `RoomInfo` command sent before
authentication closes the connection with `InvalidState`. -/
theorem C2_phase_gating_witness :
    authLoop testEnv [.text "info"] [] = ([], [], .error .InvalidState) :=
  C2_phase_gating.1 testEnv "info"
    { id := some "d1", command_type := .RoomInfo } [] [] rfl rfl

/-- Concrete witness for C3: an unparseable text frame in the
authentication phase closes the connection with `InvalidData` and emits
nothing. -/
theorem C3_parse_failure_witness :
    authLoop testEnv [.text "zzz"] [] = ([], [], .error .InvalidData) :=
  C3_parse_failure.1 testEnv "zzz" [] [] rfl

/-- Concrete witness for C5: another user's `UserJoined` broadcast is
forwarded as exactly one outbound event. -/
theorem C5_room_events_witness :
    eventLoopGo testEnv { id := "r" } "u1" "rtc"
        [.room (.UserJoined "u2")] [] =
      ([.send (.event (.UserJoined "u2")) "json"], [], .running) :=
  C5_room_events.2.1 testEnv { id := "r" } "u1" "rtc" [] "u2" "json"
    (by decide) rfl

/-- Concrete witness for C6: a failing `ConnectTransport` emits exactly
one error envelope carrying the command's id and tag, and the loop keeps
running. -/
theorem C6_connect_transport_witness :
    eventLoopGo testEnv { id := "r" } "u1" "rtc"
        [.client (.text "connBad")] [] =
      ([.send
          (.errorMsg
            (WSError.from_command
              { id := some "c2", command_type := .ConnectTransport "bad" }
              .TransportConnectionFailure))
          "json"],
        [], .running) :=
  C6_connect_transport.1 testEnv { id := "r" } "u1" "rtc" [] "connBad"
    { id := some "c2", command_type := .ConnectTransport "bad" } "bad"
    "json" rfl rfl rfl rfl

/-- Concrete witness for C7: an `Authenticate` naming an unknown room
closes with `Unauthorized` and performs no registry call. -/
theorem C7_unauthorized_witness :
    authLoop testEnv [.text "authBadRoom"] [] =
      ([], [], .error .Unauthorized) :=
  C7_unauthorized.1 testEnv "authBadRoom"
    { id := some "a2", command_type := .Authenticate "nope" "t" } [] []
    "nope" "t" rfl rfl rfl

/-- Concrete witness for C8: a `RoomInfo` command yields exactly one reply
with the room id, `video_allowed = false` and the snapshot-derived user
map. -/
theorem C8_room_info_witness :
    eventLoopGo testEnv { id := "r" } "u1" "rtc" [.client (.text "info")]
        [] =
      ([.send
          (.reply
            { id := some "d1"
              reply_type :=
                .RoomInfo "r" false
                  (buildUserInfo
                    (testEnv.roomUsersSnapshot { id := "r" })) })
          "json"],
        [], .running) :=
  C8_room_info.1 testEnv { id := "r" } "u1" "rtc" [] "info"
    { id := some "d1", command_type := .RoomInfo } "json" rfl rfl rfl

/-- Concrete witness for C9: a successful `Authenticate` produces exactly
one reply carrying the command's id. -/
theorem C9_id_roundtrip_witness :
    authLoop testEnv [.text "auth"] [] =
      ([.register "r" "t" (some "u1"),
        .send
          (.reply
            { id := some "a1"
              reply_type := .Authenticate "u1" "r" { caps := "caps" } })
          "json"],
        [], .ok (.authed { id := "r" } "u1" [])) :=
  C9_id_roundtrip.1 testEnv "auth"
    { id := some "a1", command_type := .Authenticate "r" "t" } [] "r" "t"
    { id := "r" } "u1" { caps := "caps" } "json" rfl rfl rfl rfl rfl rfl

/-- Concrete witness for C10: a failing serializer makes the
serialize-and-send step fail with `InvalidData` before anything reaches
the sink. -/
theorem C10_serialize_invalid_data_witness :
    doSend testEnvNoSer (.event (.UserJoined "u2")) [] =
      ([], [], some .InvalidData) :=
  C10_serialize_invalid_data.1 testEnvNoSer (.event (.UserJoined "u2")) []
    rfl

end Vortex
